import Mathlib

/-!
Shallow embedding of `paradex_py`'s websocket client
(`src/paradex_py/api/ws_client.py` and the channel enum in
`src/paradex_py/api/models.py`).

Modelling decisions:
* A Python callback is an opaque handler; we represent it by a `Nat`
  identity (`callbackId`).  Whether a given callback raises when invoked
  is an external parameter `raises : Nat → Bool` of the dispatch loop.
* `self.active_subscriptions` is a `defaultdict(list)`; we embed it as an
  insertion-ordered association list `List (String × List ActiveSubscription)`
  together with a `ddGet` operation that materialises an empty entry on
  lookup of an absent key, exactly as `defaultdict.__getitem__` does.
* Python exceptions are embedded with `Except`: every operation returns
  the post-state (mutations performed before the raise persist, as in
  Python), the list of wire messages sent, and an `Except` outcome.
* `channel.value.format(**params)` is embedded by parsing each enum
  member's template string into literal/placeholder segments
  (`Seg`), with `formatTmpl` substituting placeholders from the params
  mapping and failing with the missing key (Python `KeyError`) when a
  placeholder has no binding.  `renderTmpl` re-renders the segments and
  is proved equal to the source's literal strings.
-/

/-- `ParadexWebsocketChannel` from `models.py`: the fixed channel enumeration. -/
inductive ParadexWebsocketChannel where
  | ACCOUNT
  | BALANCE_EVENTS
  | BBO
  | FILLS
  | FUNDING_DATA
  | FUNDING_PAYMENTS
  | MARKETS_SUMMARY
  | ORDERS
  | ORDER_BOOK
  | ORDER_BOOK_DELTAS
  | POINTS_DATA
  | POSITIONS
  | TRADES
  | TRADEBUSTS
  | TRANSACTIONS
  | TRANSFERS
  deriving DecidableEq, Repr

/-- One segment of a channel template: a literal piece or a named placeholder. -/
inductive Seg where
  | lit (s : String)
  | ph (name : String)
  deriving DecidableEq, Repr

open Seg in
/-- The template string of each enum member, split into segments. -/
def ParadexWebsocketChannel.value : ParadexWebsocketChannel → List Seg
  | .ACCOUNT => [lit "account"]
  | .BALANCE_EVENTS => [lit "balance_events"]
  | .BBO => [lit "bbo.", ph "market"]
  | .FILLS => [lit "fills.", ph "market"]
  | .FUNDING_DATA => [lit "funding_data.", ph "market"]
  | .FUNDING_PAYMENTS => [lit "funding_payments.", ph "market"]
  | .MARKETS_SUMMARY => [lit "markets_summary"]
  | .ORDERS => [lit "orders.", ph "market"]
  | .ORDER_BOOK => [lit "order_book.", ph "market", lit ".snapshot@15@100ms"]
  | .ORDER_BOOK_DELTAS => [lit "order_book.", ph "market", lit ".deltas"]
  | .POINTS_DATA => [lit "points_data.", ph "market", lit ".", ph "program"]
  | .POSITIONS => [lit "positions"]
  | .TRADES => [lit "trades.", ph "market"]
  | .TRADEBUSTS => [lit "tradebusts"]
  | .TRANSACTIONS => [lit "transaction"]
  | .TRANSFERS => [lit "transfers"]

/-- Re-render a segment list back into Python template-string syntax. -/
def renderTmpl : List Seg → String
  | [] => ""
  | Seg.lit s :: rest => s ++ renderTmpl rest
  | Seg.ph n :: rest => "\x7b" ++ n ++ "\x7d" ++ renderTmpl rest

/-- The literal `value` strings of the enum members, verbatim from `models.py`. -/
def sourceValueStr : ParadexWebsocketChannel → String
  | .ACCOUNT => "account"
  | .BALANCE_EVENTS => "balance_events"
  | .BBO => "bbo.\x7bmarket\x7d"
  | .FILLS => "fills.\x7bmarket\x7d"
  | .FUNDING_DATA => "funding_data.\x7bmarket\x7d"
  | .FUNDING_PAYMENTS => "funding_payments.\x7bmarket\x7d"
  | .MARKETS_SUMMARY => "markets_summary"
  | .ORDERS => "orders.\x7bmarket\x7d"
  | .ORDER_BOOK => "order_book.\x7bmarket\x7d.snapshot@15@100ms"
  | .ORDER_BOOK_DELTAS => "order_book.\x7bmarket\x7d.deltas"
  | .POINTS_DATA => "points_data.\x7bmarket\x7d.\x7bprogram\x7d"
  | .POSITIONS => "positions"
  | .TRADES => "trades.\x7bmarket\x7d"
  | .TRADEBUSTS => "tradebusts"
  | .TRANSACTIONS => "transaction"
  | .TRANSFERS => "transfers"

/-- The segment model renders back exactly to the source's template strings. -/
theorem renderTmpl_value_eq_source (c : ParadexWebsocketChannel) :
    renderTmpl c.value = sourceValueStr c := by
  cases c <;> rfl

/-- Parameter mapping supplied by the caller (Python `params` dict). -/
abbrev Params := List (String × String)

/-- First-match association-list lookup. -/
def plookup {α : Type} : List (String × α) → String → Option α
  | [], _ => none
  | (k, v) :: rest, key => if k = key then some v else plookup rest key

/-- `template.format(**params)`: substitute placeholders left to right,
failing with the missing key (`KeyError`) if a placeholder is unbound. -/
def formatTmpl : List Seg → Params → Except String String
  | [], _ => .ok ""
  | Seg.lit s :: rest, p => (formatTmpl rest p).map (fun t => s ++ t)
  | Seg.ph n :: rest, p =>
    match plookup p n with
    | none => .error n
    | some v => (formatTmpl rest p).map (fun t => v ++ t)

/-- `ActiveSubscription` from `ws_client.py`; the callback is opaque and
represented by its identity. -/
structure ActiveSubscription where
  callbackId : Nat
  subscription_id : Nat
  deriving DecidableEq, Repr

/-- The table type of `self.active_subscriptions` (`defaultdict(list)`),
embedded as an insertion-ordered association list. -/
abbrev ActiveTable := List (String × List ActiveSubscription)

/-- `defaultdict(list).__getitem__`: return the stored list, materialising
an empty entry (at the end, dict insertion order) when the key is absent. -/
def ddGet (m : ActiveTable) (k : String) : List ActiveSubscription × ActiveTable :=
  match plookup m k with
  | some v => (v, m)
  | none => ([], m ++ [(k, [])])

/-- Dict assignment `m[k] = v`: replace in place, or append when absent. -/
def ddSet (m : ActiveTable) (k : String) (v : List ActiveSubscription) : ActiveTable :=
  match m with
  | [] => [(k, v)]
  | (k', v') :: rest => if k' = k then (k, v) :: rest else (k', v') :: ddSet rest k v

/-- `m[k].append(x)`: the combined effect of `__getitem__` then in-place append. -/
def ddAppend (m : ActiveTable) (k : String) (x : ActiveSubscription) : ActiveTable :=
  match m with
  | [] => [(k, [x])]
  | (k', v') :: rest => if k' = k then (k, v' ++ [x]) :: rest else (k', v') :: ddAppend rest k x

/-- Lookup with the `defaultdict` default: absent keys read as `[]`. -/
def lookupD (m : ActiveTable) (k : String) : List ActiveSubscription :=
  (plookup m k).getD []

/-- The mutable state of a `ParadexWebsocketClient` instance (the fields of
`__init__` that the registry operations read or write). -/
structure ClientState where
  ws_ready : Bool
  queued_subscriptions : List (ParadexWebsocketChannel × Params × ActiveSubscription)
  active_subscriptions : ActiveTable
  subscription_id_counter : Nat
  deriving DecidableEq, Repr

/-- The state `__init__` builds: not ready, empty registry, counter 0. -/
def initialState : ClientState :=
  { ws_ready := false
    queued_subscriptions := []
    active_subscriptions := []
    subscription_id_counter := 0 }

/-- The outbound wire messages the client can send (the JSON-RPC `id` field,
derived from the wall clock, is not modelled). -/
inductive WireMsg where
  | subscribeMsg (channel : String)
  | unsubscribeMsg (channel : String)
  | authMsg
  | pingMsg
  deriving DecidableEq, Repr

/-- The exceptions the embedded operations can raise. -/
inductive WsError where
  /-- Python `KeyError` from `str.format` on a missing placeholder. -/
  | keyError (name : String)
  /-- `NotImplementedError("Cannot subscribe to ... multiple times")`. -/
  | duplicateSub (channel : String)
  /-- `NotImplementedError("Can't unsubscribe before websocket connected")`. -/
  | unsubBeforeReady
  /-- An exception raised by a subscriber callback during dispatch. -/
  | callbackError
  deriving DecidableEq, Repr

/-- The restricted channel list from `ParadexWebsocketClient.subscribe`. -/
def RESTRICTED : List String :=
  ["account", "balance_events", "markets_summary", "positions",
   "tradebusts", "transaction", "transfers"]

/-- `ParadexWebsocketClient.subscribe`.  Returns the post-state (mutations
made before a raise persist, as in Python), the wire messages sent, and
either the returned subscription id or the exception raised. -/
def subscribe (s : ClientState) (channel : ParadexWebsocketChannel) (callbackId : Nat)
    (subscriptionIdOpt : Option Nat) (params : Params) :
    ClientState × List WireMsg × Except WsError Nat :=
  let (sid, s1) :=
    match subscriptionIdOpt with
    | none => (s.subscription_id_counter + 1,
               { s with subscription_id_counter := s.subscription_id_counter + 1 })
    | some i => (i, s)
  match formatTmpl channel.value params with
  | .error n => (s1, [], .error (.keyError n))
  | .ok channel_with_params =>
    if s1.ws_ready = false then
      ({ s1 with queued_subscriptions :=
           s1.queued_subscriptions ++ [(channel, params, ⟨callbackId, sid⟩)] },
       [], .ok sid)
    else
      let (cur, act1) := ddGet s1.active_subscriptions channel_with_params
      let s2 := { s1 with active_subscriptions := act1 }
      if RESTRICTED.contains channel_with_params && cur.length != 0 then
        (s2, [], .error (.duplicateSub channel_with_params))
      else
        ({ s2 with active_subscriptions :=
             ddAppend s2.active_subscriptions channel_with_params ⟨callbackId, sid⟩ },
         [.subscribeMsg channel_with_params], .ok sid)

/-- `ParadexWebsocketClient.unsubscribe`. -/
def unsubscribe (s : ClientState) (channel : ParadexWebsocketChannel)
    (subscription_id : Nat) (params : Params) :
    ClientState × List WireMsg × Except WsError Bool :=
  if s.ws_ready = false then
    (s, [], .error .unsubBeforeReady)
  else
    match formatTmpl channel.value params with
    | .error n => (s, [], .error (.keyError n))
    | .ok channel_with_params =>
      let (cur, act1) := ddGet s.active_subscriptions channel_with_params
      let newSubs := cur.filter (fun x => x.subscription_id ≠ subscription_id)
      let sent := if newSubs.length = 0 then [WireMsg.unsubscribeMsg channel_with_params] else []
      ({ s with active_subscriptions := ddSet act1 channel_with_params newSubs },
       sent, .ok (decide (cur.length ≠ newSubs.length)))

/-- A parsed inbound JSON frame, as far as `read_messages` inspects it:
the presence of a top-level `params` field and, inside it, an optional
`channel` string.  The rest of `params` (the payload handed to callbacks)
is opaque and carried as a token. -/
structure ParamsObj where
  channel : Option String
  payloadTok : Nat
  deriving DecidableEq, Repr

/-- An inbound websocket message: the literal banner string the server sends
on connect, or a JSON object with or without a `params` field. -/
inductive InMsg where
  | establishedBanner
  | obj (params : Option ParamsObj)
  deriving DecidableEq, Repr

/-- The dispatch loop of `read_messages`: invoke each callback in order with
the params payload; an uncaught callback exception aborts the loop and
propagates (there is no try/except around the call).  Returns the list of
(callbackId, payload) invocations actually performed. -/
def runCallbacks (raises : Nat → Bool) (data : ParamsObj) :
    List ActiveSubscription → List (Nat × ParamsObj) × Except WsError Unit
  | [] => ([], .ok ())
  | a :: rest =>
    if raises a.callbackId then
      ([(a.callbackId, data)], .error .callbackError)
    else
      let (inv, out) := runCallbacks raises data rest
      ((a.callbackId, data) :: inv, out)

/-- `ParadexWebsocketClient.read_messages`.  Returns the post-state, the
callback invocations performed, and the outcome (an error when a callback
exception propagated out of the handler). -/
def read_messages (raises : Nat → Bool) (s : ClientState) (msg : InMsg) :
    ClientState × List (Nat × ParamsObj) × Except WsError Unit :=
  match msg with
  | .establishedBanner => (s, [], .ok ())
  | .obj none => (s, [], .ok ())
  | .obj (some data) =>
    match data.channel with
    | none => (s, [], .ok ())
    | some channel_with_params =>
      if channel_with_params = "pong" then
        (s, [], .ok ())
      else
        let (subs, act1) := ddGet s.active_subscriptions channel_with_params
        let s1 := { s with active_subscriptions := act1 }
        if subs.length = 0 then
          (s1, [], .ok ())
        else
          (s1, runCallbacks raises data subs)

/-- The replay loop in `on_open`: iterate over the snapshot of
`queued_subscriptions`, re-invoking `subscribe` with each entry's original
channel, params, callback and subscription id.  An exception from
`subscribe` propagates, aborting the loop. -/
def drainLoop (s : ClientState) (sent : List WireMsg) :
    List (ParadexWebsocketChannel × Params × ActiveSubscription) →
    ClientState × List WireMsg × Except WsError Unit
  | [] => (s, sent, .ok ())
  | (channel, params, a) :: rest =>
    let (s', ws, out) := subscribe s channel a.callbackId (some a.subscription_id) params
    match out with
    | .error e => (s', sent ++ ws, .error e)
    | .ok _ => drainLoop s' (sent ++ ws) rest

/-- `ParadexWebsocketClient.on_open`: mark the handle ready, send the auth
request when an account is configured, then replay the queued
subscriptions.  The queue itself is never written. -/
def on_open (s : ClientState) (hasAccount : Bool) :
    ClientState × List WireMsg × Except WsError Unit :=
  let s1 := { s with ws_ready := true }
  let sentAuth := if hasAccount then [WireMsg.authMsg] else []
  drainLoop s1 sentAuth s1.queued_subscriptions

/-- `ParadexWebsocketClient.reconnect`: mark the current instance not ready,
then construct and start a brand-new `ParadexWebsocketClient` (whose
`__init__` yields `initialState`).  Returns (old state, new client state). -/
def reconnect (s : ClientState) : ClientState × ClientState :=
  ({ s with ws_ready := false }, initialState)

section HelperLemmas

theorem plookup_append {α : Type} (m1 m2 : List (String × α)) (j : String) :
    plookup (m1 ++ m2) j =
      match plookup m1 j with
      | some v => some v
      | none => plookup m2 j := by
  induction m1 with
  | nil => simp [plookup]
  | cons hd tl ih =>
    obtain ⟨k, v⟩ := hd
    by_cases h : k = j <;> simp [plookup, h, ih]

@[simp]
theorem ddGet_fst (m : ActiveTable) (k : String) : (ddGet m k).1 = lookupD m k := by
  unfold ddGet lookupD
  cases h : plookup m k <;> simp [h]

theorem lookupD_ddGet_snd (m : ActiveTable) (k j : String) :
    lookupD (ddGet m k).2 j = lookupD m j := by
  unfold ddGet
  cases h : plookup m k with
  | some v => rfl
  | none =>
    simp only [lookupD, plookup_append]
    cases hj : plookup m j with
    | some w => rfl
    | none =>
      by_cases hk : k = j
      · subst hk
        simp [plookup, h]
      · simp [plookup, hk]

theorem ddGet_snd_of_present (m : ActiveTable) (k : String)
    (h : plookup m k ≠ none) : (ddGet m k).2 = m := by
  unfold ddGet
  cases hp : plookup m k with
  | some v => rfl
  | none => exact absurd hp h

theorem lookupD_ddAppend (m : ActiveTable) (k : String) (x : ActiveSubscription)
    (j : String) :
    lookupD (ddAppend m k x) j = if j = k then lookupD m j ++ [x] else lookupD m j := by
  induction m with
  | nil =>
    by_cases h : j = k
    · subst h; simp [ddAppend, lookupD, plookup]
    · have h2 : ¬(k = j) := fun hh => h hh.symm
      simp [ddAppend, lookupD, plookup, h, h2]
  | cons hd tl ih =>
    obtain ⟨k', v'⟩ := hd
    by_cases hk : k' = k
    · subst hk
      by_cases hj : j = k'
      · subst hj; simp [ddAppend, lookupD, plookup]
      · have hj2 : ¬(k' = j) := fun hh => hj hh.symm
        simp [ddAppend, lookupD, plookup, hj, hj2]
    · simp only [ddAppend, if_neg hk]
      by_cases hj : k' = j
      · subst hj
        simp [lookupD, plookup, hk]
      · have e1 : lookupD ((k', v') :: ddAppend tl k x) j = lookupD (ddAppend tl k x) j := by
          simp [lookupD, plookup, hj]
        have e2 : lookupD ((k', v') :: tl) j = lookupD tl j := by
          simp [lookupD, plookup, hj]
        rw [e1, ih, e2]

theorem lookupD_ddSet (m : ActiveTable) (k : String) (v : List ActiveSubscription)
    (j : String) :
    lookupD (ddSet m k v) j = if j = k then v else lookupD m j := by
  induction m with
  | nil =>
    by_cases h : j = k
    · subst h; simp [ddSet, lookupD, plookup]
    · have h2 : ¬(k = j) := fun hh => h hh.symm
      simp [ddSet, lookupD, plookup, h, h2]
  | cons hd tl ih =>
    obtain ⟨k', v'⟩ := hd
    by_cases hk : k' = k
    · subst hk
      by_cases hj : j = k'
      · subst hj; simp [ddSet, lookupD, plookup]
      · have hj2 : ¬(k' = j) := fun hh => hj hh.symm
        simp [ddSet, lookupD, plookup, hj, hj2]
    · simp only [ddSet, if_neg hk]
      by_cases hj : k' = j
      · subst hj
        simp [lookupD, plookup, hk]
      · have e1 : lookupD ((k', v') :: ddSet tl k v) j = lookupD (ddSet tl k v) j := by
          simp [lookupD, plookup, hj]
        have e2 : lookupD ((k', v') :: tl) j = lookupD tl j := by
          simp [lookupD, plookup, hj]
        rw [e1, ih, e2]

theorem runCallbacks_ok_of_no_raise (raises : Nat → Bool) (data : ParamsObj)
    (l : List ActiveSubscription) (h : ∀ a ∈ l, raises a.callbackId = false) :
    runCallbacks raises data l = (l.map (fun a => (a.callbackId, data)), .ok ()) := by
  induction l with
  | nil => rfl
  | cons a rest ih =>
    have ha : raises a.callbackId = false := h a (by simp)
    have hrest : ∀ x ∈ rest, raises x.callbackId = false := fun x hx => h x (by simp [hx])
    simp [runCallbacks, ha, ih hrest]

theorem runCallbacks_raise_split (raises : Nat → Bool) (data : ParamsObj)
    (pre post : List ActiveSubscription) (a : ActiveSubscription)
    (hpre : ∀ x ∈ pre, raises x.callbackId = false) (ha : raises a.callbackId = true) :
    runCallbacks raises data (pre ++ a :: post) =
      (pre.map (fun x => (x.callbackId, data)) ++ [(a.callbackId, data)],
       .error .callbackError) := by
  induction pre with
  | nil => simp [runCallbacks, ha]
  | cons x rest ih =>
    have hx : raises x.callbackId = false := hpre x (by simp)
    have hrest : ∀ y ∈ rest, raises y.callbackId = false := fun y hy => hpre y (by simp [hy])
    simp [runCallbacks, hx, ih hrest]

end HelperLemmas

/-- The subscription id a `subscribe` call uses: the caller's, or the freshly
incremented counter. -/
def sidOf : Option Nat → Nat → Nat
  | none, c => c + 1
  | some i, _ => i

/-- The counter value after a `subscribe` call: incremented exactly when the
caller supplied no subscription id. -/
def ctrOf : Option Nat → Nat → Nat
  | none, c => c + 1
  | some _, c => c

section Characterization

variable (s : ClientState) (channel : ParadexWebsocketChannel) (cb : Nat)
  (sidOpt : Option Nat) (params : Params) (cwp : String)

theorem subscribe_keyError (n : String)
    (hf : formatTmpl channel.value params = .error n) :
    subscribe s channel cb sidOpt params =
      ({ s with subscription_id_counter := ctrOf sidOpt s.subscription_id_counter },
       [], .error (.keyError n)) := by
  cases sidOpt <;> simp [subscribe, hf, ctrOf]

theorem subscribe_not_ready
    (h : s.ws_ready = false) (hf : formatTmpl channel.value params = .ok cwp) :
    subscribe s channel cb sidOpt params =
      ({ s with
           subscription_id_counter := ctrOf sidOpt s.subscription_id_counter,
           queued_subscriptions := s.queued_subscriptions ++
             [(channel, params, ⟨cb, sidOf sidOpt s.subscription_id_counter⟩)] },
       [], .ok (sidOf sidOpt s.subscription_id_counter)) := by
  cases sidOpt <;> simp [subscribe, hf, h, ctrOf, sidOf]

theorem subscribe_ready_dup
    (h : s.ws_ready = true) (hf : formatTmpl channel.value params = .ok cwp)
    (hcond : (RESTRICTED.contains cwp &&
        (lookupD s.active_subscriptions cwp).length != 0) = true) :
    subscribe s channel cb sidOpt params =
      ({ s with subscription_id_counter := ctrOf sidOpt s.subscription_id_counter },
       [], .error (.duplicateSub cwp)) := by
  have hne : plookup s.active_subscriptions cwp ≠ none := by
    intro hp
    have hemp : lookupD s.active_subscriptions cwp = [] := by simp [lookupD, hp]
    rw [hemp] at hcond
    simp at hcond
  have hdd : (ddGet s.active_subscriptions cwp).2 = s.active_subscriptions :=
    ddGet_snd_of_present s.active_subscriptions cwp hne
  have hfst : (ddGet s.active_subscriptions cwp).1 = lookupD s.active_subscriptions cwp :=
    ddGet_fst s.active_subscriptions cwp
  cases sidOpt <;>
    simp only [subscribe, hf, h, Bool.false_eq_true, if_false, hfst, hdd, hcond, if_true,
      ctrOf] <;>
    rfl

theorem subscribe_ready_ok
    (h : s.ws_ready = true) (hf : formatTmpl channel.value params = .ok cwp)
    (hcond : (RESTRICTED.contains cwp &&
        (lookupD s.active_subscriptions cwp).length != 0) = false) :
    subscribe s channel cb sidOpt params =
      ({ s with
           subscription_id_counter := ctrOf sidOpt s.subscription_id_counter,
           active_subscriptions := ddAppend (ddGet s.active_subscriptions cwp).2 cwp
             ⟨cb, sidOf sidOpt s.subscription_id_counter⟩ },
       [.subscribeMsg cwp], .ok (sidOf sidOpt s.subscription_id_counter)) := by
  have hfst : (ddGet s.active_subscriptions cwp).1 = lookupD s.active_subscriptions cwp :=
    ddGet_fst s.active_subscriptions cwp
  cases sidOpt <;>
    simp only [subscribe, hf, h, Bool.false_eq_true, if_false, hfst, hcond, ctrOf, sidOf] <;>
    rfl

theorem unsubscribe_not_ready (sid : Nat) (h : s.ws_ready = false) :
    unsubscribe s channel sid params = (s, [], .error .unsubBeforeReady) := by
  simp [unsubscribe, h]

theorem unsubscribe_ready (sid : Nat)
    (h : s.ws_ready = true) (hf : formatTmpl channel.value params = .ok cwp) :
    unsubscribe s channel sid params =
      ({ s with active_subscriptions := ddSet (ddGet s.active_subscriptions cwp).2 cwp ((lookupD s.active_subscriptions cwp).filter (fun x => x.subscription_id ≠ sid)) },
       (if ((lookupD s.active_subscriptions cwp).filter
             (fun x => x.subscription_id ≠ sid)).length = 0
        then [WireMsg.unsubscribeMsg cwp] else []),
       .ok (decide ((lookupD s.active_subscriptions cwp).length ≠
         ((lookupD s.active_subscriptions cwp).filter
           (fun x => x.subscription_id ≠ sid)).length))) := by
  have hfst : (ddGet s.active_subscriptions cwp).1 = lookupD s.active_subscriptions cwp :=
    ddGet_fst s.active_subscriptions cwp
  simp only [unsubscribe, h, Bool.true_eq_false, if_false, hf, hfst]

end Characterization

/-- Observational equivalence of client states: equal ready flag, queue and
counter, and the same subscriber list for every channel key (a materialised
empty `defaultdict` entry is not observable). -/
def EquivState (s t : ClientState) : Prop :=
  s.ws_ready = t.ws_ready ∧
  s.queued_subscriptions = t.queued_subscriptions ∧
  s.subscription_id_counter = t.subscription_id_counter ∧
  ∀ k, lookupD s.active_subscriptions k = lookupD t.active_subscriptions k

theorem EquivState.refl (s : ClientState) : EquivState s s :=
  ⟨rfl, rfl, rfl, fun _ => rfl⟩

/-- The state effect of `read_messages`: the ready flag, queue and counter are
untouched; every channel key reads the same subscriber list afterwards; and
the table either is unchanged or gained a single empty entry for a
previously absent key. -/
theorem read_messages_state_effect (raises : Nat → Bool) (s : ClientState) (msg : InMsg) :
    (read_messages raises s msg).1.ws_ready = s.ws_ready ∧
    (read_messages raises s msg).1.queued_subscriptions = s.queued_subscriptions ∧
    (read_messages raises s msg).1.subscription_id_counter = s.subscription_id_counter ∧
    (∀ k, lookupD (read_messages raises s msg).1.active_subscriptions k =
      lookupD s.active_subscriptions k) ∧
    ((read_messages raises s msg).1.active_subscriptions = s.active_subscriptions ∨
      ∃ ch, plookup s.active_subscriptions ch = none ∧
        (read_messages raises s msg).1.active_subscriptions =
          s.active_subscriptions ++ [(ch, [])]) := by
  match msg with
  | .establishedBanner => exact ⟨rfl, rfl, rfl, fun _ => rfl, Or.inl rfl⟩
  | .obj none => exact ⟨rfl, rfl, rfl, fun _ => rfl, Or.inl rfl⟩
  | .obj (some data) =>
    match hch : data.channel with
    | none => simp [read_messages, hch]
    | some ch =>
      by_cases hpong : ch = "pong"
      · simp [read_messages, hch, hpong]
      · have hget : ∀ k, lookupD (ddGet s.active_subscriptions ch).2 k =
            lookupD s.active_subscriptions k :=
          fun k => lookupD_ddGet_snd s.active_subscriptions ch k
        have htbl : (ddGet s.active_subscriptions ch).2 = s.active_subscriptions ∨
            ∃ c, plookup s.active_subscriptions c = none ∧
              (ddGet s.active_subscriptions ch).2 = s.active_subscriptions ++ [(c, [])] := by
          unfold ddGet
          cases hp : plookup s.active_subscriptions ch with
          | some v => exact Or.inl rfl
          | none => exact Or.inr ⟨ch, hp, rfl⟩
        have hres : (read_messages raises s (.obj (some data))).1 =
            { s with active_subscriptions := (ddGet s.active_subscriptions ch).2 } := by
          simp only [read_messages, hch, if_neg hpong]
          split <;> rfl
        rw [hres]
        exact ⟨rfl, rfl, rfl, hget, htbl⟩

theorem subscribe_respects_equiv (s t : ClientState) (h : EquivState s t)
    (channel : ParadexWebsocketChannel) (cb : Nat) (sidOpt : Option Nat) (params : Params) :
    (subscribe s channel cb sidOpt params).2 = (subscribe t channel cb sidOpt params).2 ∧
    EquivState (subscribe s channel cb sidOpt params).1 (subscribe t channel cb sidOpt params).1 := by
  obtain ⟨h1, h2, h3, h4⟩ := h
  cases hf : formatTmpl channel.value params with
  | error n =>
    rw [subscribe_keyError s channel cb sidOpt params n hf,
        subscribe_keyError t channel cb sidOpt params n hf]
    exact ⟨rfl, h1, h2, congrArg (ctrOf sidOpt) h3, h4⟩
  | ok cwp =>
    cases hs : s.ws_ready with
    | false =>
      have ht : t.ws_ready = false := h1 ▸ hs
      rw [subscribe_not_ready s channel cb sidOpt params cwp hs hf,
          subscribe_not_ready t channel cb sidOpt params cwp ht hf]
      refine ⟨by rw [h3], h1, by rw [h2, h3], congrArg (ctrOf sidOpt) h3, h4⟩
    | true =>
      have ht : t.ws_ready = true := h1 ▸ hs
      have hcw : lookupD s.active_subscriptions cwp = lookupD t.active_subscriptions cwp :=
        h4 cwp
      cases hb : (RESTRICTED.contains cwp &&
          (lookupD s.active_subscriptions cwp).length != 0) with
      | true =>
        have hbt : (RESTRICTED.contains cwp &&
            (lookupD t.active_subscriptions cwp).length != 0) = true := by
          rw [← hcw]; exact hb
        rw [subscribe_ready_dup s channel cb sidOpt params cwp hs hf hb,
            subscribe_ready_dup t channel cb sidOpt params cwp ht hf hbt]
        exact ⟨rfl, h1, h2, congrArg (ctrOf sidOpt) h3, h4⟩
      | false =>
        have hbt : (RESTRICTED.contains cwp &&
            (lookupD t.active_subscriptions cwp).length != 0) = false := by
          rw [← hcw]; exact hb
        rw [subscribe_ready_ok s channel cb sidOpt params cwp hs hf hb,
            subscribe_ready_ok t channel cb sidOpt params cwp ht hf hbt]
        refine ⟨by rw [h3], h1, h2, congrArg (ctrOf sidOpt) h3, ?_⟩
        intro j
        show lookupD (ddAppend (ddGet s.active_subscriptions cwp).2 cwp
            ⟨cb, sidOf sidOpt s.subscription_id_counter⟩) j =
          lookupD (ddAppend (ddGet t.active_subscriptions cwp).2 cwp
            ⟨cb, sidOf sidOpt t.subscription_id_counter⟩) j
        rw [lookupD_ddAppend, lookupD_ddAppend, lookupD_ddGet_snd, lookupD_ddGet_snd,
            h4 j, h3]

theorem unsubscribe_respects_equiv (s t : ClientState) (h : EquivState s t)
    (channel : ParadexWebsocketChannel) (sid : Nat) (params : Params) :
    (unsubscribe s channel sid params).2 = (unsubscribe t channel sid params).2 ∧
    EquivState (unsubscribe s channel sid params).1 (unsubscribe t channel sid params).1 := by
  obtain ⟨h1, h2, h3, h4⟩ := h
  cases hs : s.ws_ready with
  | false =>
    have ht : t.ws_ready = false := h1 ▸ hs
    rw [unsubscribe_not_ready s channel params sid hs,
        unsubscribe_not_ready t channel params sid ht]
    exact ⟨rfl, h1, h2, h3, h4⟩
  | true =>
    have ht : t.ws_ready = true := h1 ▸ hs
    cases hf : formatTmpl channel.value params with
    | error n =>
      have hus : unsubscribe s channel sid params = (s, [], .error (.keyError n)) := by
        simp [unsubscribe, hs, hf]
      have hut : unsubscribe t channel sid params = (t, [], .error (.keyError n)) := by
        simp [unsubscribe, ht, hf]
      rw [hus, hut]
      exact ⟨rfl, h1, h2, h3, h4⟩
    | ok cwp =>
      have hcw : lookupD s.active_subscriptions cwp = lookupD t.active_subscriptions cwp :=
        h4 cwp
      rw [unsubscribe_ready s channel params cwp sid hs hf,
          unsubscribe_ready t channel params cwp sid ht hf]
      refine ⟨by rw [hcw], h1, h2, h3, ?_⟩
      intro j
      show lookupD (ddSet (ddGet s.active_subscriptions cwp).2 cwp _) j =
        lookupD (ddSet (ddGet t.active_subscriptions cwp).2 cwp _) j
      rw [lookupD_ddSet, lookupD_ddSet, lookupD_ddGet_snd, lookupD_ddGet_snd, h4 j, hcw]

/-- The subscribe wire messages that replaying a queue front-to-back emits
(one per entry; an entry whose resolution fails emits nothing, but on the
replay path resolution always succeeds, having succeeded at queue time). -/
def wireOfQueue : List (ParadexWebsocketChannel × Params × ActiveSubscription) → List WireMsg
  | [] => []
  | (channel, params, _) :: rest =>
    (match formatTmpl channel.value params with
     | .ok c => [WireMsg.subscribeMsg c]
     | .error _ => []) ++ wireOfQueue rest

/-- The active table after replaying a queue in order: each entry appended
under its resolved channel, keeping its original subscription id. -/
def replayActive : ActiveTable →
    List (ParadexWebsocketChannel × Params × ActiveSubscription) → ActiveTable
  | m, [] => m
  | m, (channel, params, a) :: rest =>
    match formatTmpl channel.value params with
    | .ok c => replayActive (ddAppend (ddGet m c).2 c a) rest
    | .error _ => replayActive m rest

theorem drainLoop_ok (q : List (ParadexWebsocketChannel × Params × ActiveSubscription))
    (s : ClientState) (sent : List WireMsg)
    (hready : s.ws_ready = true)
    (hout : (drainLoop s sent q).2.2 = .ok ()) :
    (drainLoop s sent q).1.ws_ready = true ∧
    (drainLoop s sent q).1.queued_subscriptions = s.queued_subscriptions ∧
    (drainLoop s sent q).1.subscription_id_counter = s.subscription_id_counter ∧
    (drainLoop s sent q).2.1 = sent ++ wireOfQueue q ∧
    (drainLoop s sent q).1.active_subscriptions = replayActive s.active_subscriptions q := by
  induction q generalizing s sent with
  | nil =>
    refine ⟨hready, rfl, rfl, ?_, rfl⟩
    simp [drainLoop, wireOfQueue]
  | cons e rest ih =>
    obtain ⟨channel, params, a⟩ := e
    obtain ⟨cbId, sid⟩ := a
    cases hf : formatTmpl channel.value params with
    | error n =>
      have hsub := subscribe_keyError s channel cbId (some sid) params n hf
      have hbad : (drainLoop s sent ((channel, params, ⟨cbId, sid⟩) :: rest)).2.2 =
          .error (.keyError n) := by
        simp only [drainLoop, hsub]
      rw [hbad] at hout
      exact absurd hout (by simp)
    | ok cwp =>
      cases hb : (RESTRICTED.contains cwp &&
          (lookupD s.active_subscriptions cwp).length != 0) with
      | true =>
        have hsub := subscribe_ready_dup s channel cbId (some sid) params cwp hready hf hb
        have hbad : (drainLoop s sent ((channel, params, ⟨cbId, sid⟩) :: rest)).2.2 =
            .error (.duplicateSub cwp) := by
          simp only [drainLoop, hsub]
        rw [hbad] at hout
        exact absurd hout (by simp)
      | false =>
        have hsub := subscribe_ready_ok s channel cbId (some sid) params cwp hready hf hb
        have hstep : drainLoop s sent ((channel, params, ⟨cbId, sid⟩) :: rest) =
            drainLoop
              { s with
                  subscription_id_counter := ctrOf (some sid) s.subscription_id_counter,
                  active_subscriptions := ddAppend (ddGet s.active_subscriptions cwp).2 cwp
                    ⟨cbId, sidOf (some sid) s.subscription_id_counter⟩ }
              (sent ++ [.subscribeMsg cwp]) rest := by
          simp only [drainLoop, hsub]
        rw [hstep] at hout ⊢
        have hready' : ({ s with
            subscription_id_counter := ctrOf (some sid) s.subscription_id_counter,
            active_subscriptions := ddAppend (ddGet s.active_subscriptions cwp).2 cwp
              ⟨cbId, sidOf (some sid) s.subscription_id_counter⟩ } : ClientState).ws_ready =
            true := hready
        have ihh := ih _ _ hready' hout
        obtain ⟨i1, i2, i3, i4, i5⟩ := ihh
        refine ⟨i1, i2, by rw [i3]; rfl, ?_, ?_⟩
        · rw [i4, wireOfQueue, hf]
          simp
        · rw [i5]
          show replayActive _ rest = replayActive s.active_subscriptions
            ((channel, params, ⟨cbId, sid⟩) :: rest)
          rw [replayActive, hf]
          rfl

theorem on_open_ok (s : ClientState) (acct : Bool)
    (hout : (on_open s acct).2.2 = .ok ()) :
    (on_open s acct).1.ws_ready = true ∧
    (on_open s acct).1.queued_subscriptions = s.queued_subscriptions ∧
    (on_open s acct).1.subscription_id_counter = s.subscription_id_counter ∧
    (on_open s acct).2.1 =
      (if acct then [WireMsg.authMsg] else []) ++ wireOfQueue s.queued_subscriptions ∧
    (on_open s acct).1.active_subscriptions =
      replayActive s.active_subscriptions s.queued_subscriptions := by
  have hout' : (drainLoop { s with ws_ready := true }
      (if acct then [WireMsg.authMsg] else [])
      ({ s with ws_ready := true } : ClientState).queued_subscriptions).2.2 = .ok () := hout
  have hd := drainLoop_ok ({ s with ws_ready := true } : ClientState).queued_subscriptions
    { s with ws_ready := true } (if acct then [WireMsg.authMsg] else []) rfl hout'
  exact hd

theorem read_messages_dispatch (raises : Nat → Bool) (s : ClientState) (data : ParamsObj)
    (ch : String) (h1 : data.channel = some ch) (h2 : ch ≠ "pong")
    (h3 : lookupD s.active_subscriptions ch ≠ []) :
    (read_messages raises s (.obj (some data))).2 =
      runCallbacks raises data (lookupD s.active_subscriptions ch) := by
  simp only [read_messages, h1, if_neg h2, ddGet_fst]
  rw [if_neg (fun hlen => h3 (List.length_eq_zero.mp hlen))]

theorem filter_length_ne_iff (l : List ActiveSubscription) (sid : Nat) :
    l.length ≠ (l.filter (fun x => x.subscription_id ≠ sid)).length ↔
      ∃ x ∈ l, x.subscription_id = sid := by
  constructor
  · intro h
    have hlt : (l.filter (fun x => decide (x.subscription_id ≠ sid))).length < l.length :=
      Nat.lt_of_le_of_ne (List.length_filter_le _ l) (fun e => h e.symm)
    obtain ⟨x, hx, hpx⟩ := List.length_filter_lt_length_iff_exists.mp hlt
    exact ⟨x, hx, by simpa using hpx⟩
  · intro ⟨x, hx, hpx⟩
    have hlt : (l.filter (fun x => decide (x.subscription_id ≠ sid))).length < l.length :=
      List.length_filter_lt_length_iff_exists.mpr ⟨x, hx, by simp [hpx]⟩
    exact fun e => absurd e.symm (Nat.ne_of_lt hlt)

theorem formatTmpl_missing (t : List Seg) (p : Params) (n : String)
    (hmem : Seg.ph n ∈ t) (hmiss : plookup p n = none) :
    ∃ m, formatTmpl t p = .error m ∧ Seg.ph m ∈ t ∧ plookup p m = none := by
  induction t with
  | nil => cases hmem
  | cons sg rest ih =>
    cases sg with
    | lit str =>
      have hmem' : Seg.ph n ∈ rest := by simpa using hmem
      obtain ⟨m, hm1, hm2, hm3⟩ := ih hmem'
      exact ⟨m, by simp [formatTmpl, hm1, Except.map], by simp [hm2], hm3⟩
    | ph k =>
      cases hp : plookup p k with
      | none => exact ⟨k, by simp [formatTmpl, hp], by simp, hp⟩
      | some v =>
        have hne : n ≠ k := fun e => by rw [e, hp] at hmiss; cases hmiss
        have hmem' : Seg.ph n ∈ rest := by
          rcases List.mem_cons.mp hmem with h | h
          · injection h with hh
            exact absurd hh hne
          · exact h
        obtain ⟨m, hm1, hm2, hm3⟩ := ih hmem'
        exact ⟨m, by simp [formatTmpl, hp, hm1, Except.map], by simp [hm2], hm3⟩

/-- A concrete ready client holding one active `positions` subscription
(callback 7, subscription id 3) with counter 3, used as the old instance
in reconnect scenarios. -/
def readyPos3 : ClientState := { ws_ready := true, queued_subscriptions := [], active_subscriptions := [("positions", [⟨7, 3⟩])], subscription_id_counter := 3 }

/-- A concrete ready client holding one active `positions` subscription
(callback 7, subscription id 1) with counter 1. -/
def readyPos1 : ClientState := { ws_ready := true, queued_subscriptions := [], active_subscriptions := [("positions", [⟨7, 1⟩])], subscription_id_counter := 1 }

/-- A concrete ready client with two subscribers (callbacks 1 and 2) on the
channel `trades.X` and empty queue. -/
def readyTwoTrades : ClientState := { ws_ready := true, queued_subscriptions := [], active_subscriptions := [("trades.X", [⟨1, 1⟩, ⟨2, 2⟩])], subscription_id_counter := 2 }

/-- A concrete ready client with no subscriptions at all. -/
def readyEmpty : ClientState := { ws_ready := true, queued_subscriptions := [], active_subscriptions := [], subscription_id_counter := 0 }

/-- C1 counterexample: an old client (`readyPos3`) that is ready with one
active `positions` subscription (id 3, counter 3).  `reconnect` constructs
a brand-new client in `initialState`; even after the new connection opens,
its active table is empty (the old subscription is not re-established) and
its subscription_id counter is 0, not 3 — so neither the active
subscriptions nor the id numbering survives the reconnect. -/
theorem c1_reconnect_counterexample :
    (reconnect readyPos3).2 = initialState ∧
    lookupD (on_open (reconnect readyPos3).2 true).1.active_subscriptions "positions" = [] ∧
    (on_open (reconnect readyPos3).2 true).1.subscription_id_counter = 0 ∧
    lookupD readyPos3.active_subscriptions "positions" = [⟨7, 3⟩] :=
  ⟨rfl, rfl, rfl, rfl⟩

/-- C1 (amended): `reconnect` marks the old instance not ready and
constructs a brand-new client in the initial state — empty active table,
empty queue, subscription_id counter reset to 0.  No subscription from the
old client's active table is re-established automatically: even after the
new connection's `on_open`, its active table is empty and the only wire
message is the optional auth request.  Re-establishing subscriptions is
left to the caller via the `on_reconnect` notification. -/
theorem c1_reconnect_builds_fresh_client (s : ClientState) :
    (reconnect s).1 = { s with ws_ready := false } ∧
    (reconnect s).2 = initialState ∧
    (reconnect s).2.active_subscriptions = [] ∧
    (reconnect s).2.queued_subscriptions = [] ∧
    (reconnect s).2.subscription_id_counter = 0 ∧
    ∀ acct : Bool,
      (on_open (reconnect s).2 acct).1.active_subscriptions = [] ∧
      (on_open (reconnect s).2 acct).1.subscription_id_counter = 0 ∧
      (on_open (reconnect s).2 acct).2.1 = (if acct then [WireMsg.authMsg] else []) := by
  refine ⟨rfl, rfl, rfl, rfl, rfl, ?_⟩
  intro acct
  cases acct <;> exact ⟨rfl, rfl, rfl⟩

/-- C2 counterexample: a ready client (`readyPos1`) with one active
`positions` subscription and counter 1.  A second subscribe (no explicit
id) fails with the duplicate error as claimed, but the subscription_id
counter has been incremented to 2 by the failing call — the partial state
change the claim rules out. -/
theorem c2_duplicate_counterexample :
    (subscribe readyPos1 .POSITIONS 8 none []).2.2 = .error (.duplicateSub "positions") ∧
    (subscribe readyPos1 .POSITIONS 8 none []).1.subscription_id_counter = 2 ∧
    readyPos1.subscription_id_counter = 1 :=
  ⟨rfl, rfl, rfl⟩

/-- C2 (amended): on a ready client, a second subscribe to a restricted
channel that already has exactly one active subscriber fails with the
duplicate-subscription error, sends nothing, leaves exactly one active
subscriber on that channel, and leaves the active table (observably) and
the queue unchanged; however, the subscription_id counter is incremented
when the failing call supplies no explicit subscription_id (`ctrOf`), so
the call is not entirely free of state change. -/
theorem c2_duplicate_restricted_fails (s : ClientState)
    (channel : ParadexWebsocketChannel) (cb : Nat) (sidOpt : Option Nat)
    (params : Params) (cwp : String) (a : ActiveSubscription)
    (hready : s.ws_ready = true)
    (hf : formatTmpl channel.value params = .ok cwp)
    (hr : RESTRICTED.contains cwp = true)
    (hone : lookupD s.active_subscriptions cwp = [a]) :
    (subscribe s channel cb sidOpt params).2.2 = .error (.duplicateSub cwp) ∧
    (subscribe s channel cb sidOpt params).2.1 = [] ∧
    lookupD (subscribe s channel cb sidOpt params).1.active_subscriptions cwp = [a] ∧
    (∀ k, lookupD (subscribe s channel cb sidOpt params).1.active_subscriptions k =
      lookupD s.active_subscriptions k) ∧
    (subscribe s channel cb sidOpt params).1.queued_subscriptions =
      s.queued_subscriptions ∧
    (subscribe s channel cb sidOpt params).1.subscription_id_counter =
      ctrOf sidOpt s.subscription_id_counter := by
  have hb : (RESTRICTED.contains cwp &&
      (lookupD s.active_subscriptions cwp).length != 0) = true := by
    rw [hr, hone]
    rfl
  rw [subscribe_ready_dup s channel cb sidOpt params cwp hready hf hb]
  exact ⟨rfl, rfl, hone, fun k => rfl, rfl, rfl⟩

/-- C2 witness: the amended theorem applied to the concrete ready client
`readyPos1` with one active `positions` subscriber. -/
theorem c2_duplicate_restricted_fails_witness :
    formatTmpl ParadexWebsocketChannel.POSITIONS.value [] = .ok "positions" ∧
    RESTRICTED.contains "positions" = true ∧
    (subscribe readyPos1 .POSITIONS 8 none []).2.2 = .error (.duplicateSub "positions") :=
  ⟨rfl, rfl,
   (c2_duplicate_restricted_fails readyPos1 .POSITIONS 8 none [] "positions" ⟨7, 1⟩
     rfl rfl rfl rfl).1⟩

/-- C3 counterexample: queue one `bbo.{market}` subscription while not
ready, then open the connection.  The drain succeeds, the handle is ready —
but `queued_subscriptions` still holds the entry: the queue is never
cleared, so `queued` is non-empty while the transport is ready,
contradicting the claim. -/
theorem c3_queue_not_cleared_counterexample :
    (on_open (subscribe initialState .BBO 5 none [("market", "ETH-USD-PERP")]).1
      false).2.2 = .ok () ∧
    (on_open (subscribe initialState .BBO 5 none [("market", "ETH-USD-PERP")]).1
      false).1.ws_ready = true ∧
    (on_open (subscribe initialState .BBO 5 none [("market", "ETH-USD-PERP")]).1
      false).1.queued_subscriptions =
      [(.BBO, [("market", "ETH-USD-PERP")], ⟨5, 1⟩)] :=
  ⟨rfl, rfl, rfl⟩

/-- C3 (amended): when `on_open` completes without an exception, every
queued subscription has been replayed exactly once, in original enqueue
order, passing through its original subscription_id — the wire messages
sent are the optional auth request followed by one subscribe per queued
entry in order (`wireOfQueue`), and the active table is the original one
with each queued entry appended in order under its resolved channel with
its original id (`replayActive`); the subscription_id counter is
unchanged.  However the queue is NOT cleared: `queued_subscriptions` still
holds its entries after the transport becomes ready. -/
theorem c3_on_open_replays_but_keeps_queue (s : ClientState) (acct : Bool)
    (hout : (on_open s acct).2.2 = .ok ()) :
    (on_open s acct).1.ws_ready = true ∧
    (on_open s acct).2.1 =
      (if acct then [WireMsg.authMsg] else []) ++ wireOfQueue s.queued_subscriptions ∧
    (on_open s acct).1.active_subscriptions =
      replayActive s.active_subscriptions s.queued_subscriptions ∧
    (on_open s acct).1.queued_subscriptions = s.queued_subscriptions ∧
    (on_open s acct).1.subscription_id_counter = s.subscription_id_counter := by
  obtain ⟨h1, h2, h3, h4, h5⟩ := on_open_ok s acct hout
  exact ⟨h1, h4, h5, h2, h3⟩

/-- C3 witness: the amended theorem applied to the state obtained by
queueing one `bbo.{market}` subscription on a fresh client. -/
theorem c3_on_open_replays_but_keeps_queue_witness :
    (on_open (subscribe initialState .BBO 5 none [("market", "ETH-USD-PERP")]).1
      false).2.2 = .ok () ∧
    (on_open (subscribe initialState .BBO 5 none [("market", "ETH-USD-PERP")]).1
      false).2.1 = [] ++ wireOfQueue (subscribe initialState .BBO 5 none
        [("market", "ETH-USD-PERP")]).1.queued_subscriptions :=
  ⟨rfl,
   (c3_on_open_replays_but_keeps_queue
     (subscribe initialState .BBO 5 none [("market", "ETH-USD-PERP")]).1 false rfl).2.1⟩

/-- C4 counterexample: a ready client (`readyTwoTrades`) with two
subscribers (callbacks 1 and 2, in that order) on `trades.X`, where
callback 1 raises.  Dispatching a push for `trades.X` invokes only
callback 1 and the exception propagates out of `read_messages`: the
sibling subscriber (callback 2) is never invoked and the router call
aborts, contradicting the claim's isolation requirement. -/
theorem c4_callback_exception_counterexample :
    (read_messages (fun n => n == 1) readyTwoTrades
      (.obj (some ⟨some "trades.X", 0⟩))).2 =
      ([(1, ⟨some "trades.X", 0⟩)], .error .callbackError) :=
  rfl

/-- C4 (amended): dispatch of a push message to a channel with subscribers
invokes the callbacks with the params payload in subscriber-registration
order — all of them when none raises — but there is no per-callback
isolation: the first raising callback receives the payload, its exception
propagates out of `read_messages`, and the remaining sibling subscribers
are never invoked. -/
theorem c4_dispatch_order_no_isolation (raises : Nat → Bool) (s : ClientState)
    (data : ParamsObj) (ch : String) (subs : List ActiveSubscription)
    (h1 : data.channel = some ch) (h2 : ch ≠ "pong")
    (h3 : lookupD s.active_subscriptions ch = subs) (h4 : subs ≠ []) :
    ((∀ x ∈ subs, raises x.callbackId = false) →
      (read_messages raises s (.obj (some data))).2 =
        (subs.map (fun x => (x.callbackId, data)), .ok ())) ∧
    (∀ pre a post, subs = pre ++ a :: post →
      (∀ x ∈ pre, raises x.callbackId = false) →
      raises a.callbackId = true →
      (read_messages raises s (.obj (some data))).2 =
        (pre.map (fun x => (x.callbackId, data)) ++ [(a.callbackId, data)],
         .error .callbackError)) := by
  have hne : lookupD s.active_subscriptions ch ≠ [] := by
    rw [h3]; exact h4
  have hd := read_messages_dispatch raises s data ch h1 h2 hne
  rw [h3] at hd
  constructor
  · intro hnone
    rw [hd, runCallbacks_ok_of_no_raise raises data subs hnone]
  · intro pre a post hsplit hpre hra
    rw [hd, hsplit, runCallbacks_raise_split raises data pre post a hpre hra]

/-- C4 witness: the amended theorem applied to `readyTwoTrades` — with no
callback raising, both callbacks receive the payload in registration
order; with callback 1 raising, only callback 1 is invoked and the error
propagates. -/
theorem c4_dispatch_order_no_isolation_witness :
    (read_messages (fun _ => false) readyTwoTrades
      (.obj (some ⟨some "trades.X", 0⟩))).2 =
      ([(1, ⟨some "trades.X", 0⟩), (2, ⟨some "trades.X", 0⟩)], .ok ()) ∧
    (read_messages (fun n => n == 1) readyTwoTrades
      (.obj (some ⟨some "trades.X", 0⟩))).2 =
      ([(1, ⟨some "trades.X", 0⟩)], .error .callbackError) :=
  ⟨by
    have h := (c4_dispatch_order_no_isolation (fun _ => false) readyTwoTrades
      ⟨some "trades.X", 0⟩ "trades.X" [⟨1, 1⟩, ⟨2, 2⟩] rfl (by decide) rfl
      (by decide)).1 (by decide)
    simpa using h,
   by
    have h := (c4_dispatch_order_no_isolation (fun n => n == 1) readyTwoTrades
      ⟨some "trades.X", 0⟩ "trades.X" [⟨1, 1⟩, ⟨2, 2⟩] rfl (by decide) rfl
      (by decide)).2 [] ⟨1, 1⟩ [⟨2, 2⟩] rfl (by simp) rfl
    simpa using h⟩

/-- C5 counterexample: on a ready client with an empty active set
(`readyEmpty`), unsubscribing any id returns false and removes nothing —
but a spurious `unsubscribe` wire message IS sent (the post-filter list is
empty, and the code keys the send on that, not on an actual removal),
contradicting the claim that no wire message is emitted when the id is
absent, including when the active set is empty. -/
theorem c5_empty_set_sends_counterexample :
    (unsubscribe readyEmpty .POSITIONS 1 []).2.2 = .ok false ∧
    (unsubscribe readyEmpty .POSITIONS 1 []).2.1 = [WireMsg.unsubscribeMsg "positions"] :=
  ⟨rfl, rfl⟩

/-- C5 (amended): on a ready client, unsubscribing with a subscription_id
not present in the channel's active list returns false and removes
nothing (every channel reads the same subscriber list afterwards, and the
queue is untouched); no wire message is sent when other subscribers remain
on the channel, but when the channel's active list is empty a (spurious)
`unsubscribe` wire message is sent — the send is keyed on the post-removal
list being empty, not on a removal having happened. -/
theorem c5_unsubscribe_absent_id (s : ClientState)
    (channel : ParadexWebsocketChannel) (sid : Nat) (params : Params) (cwp : String)
    (hready : s.ws_ready = true)
    (hf : formatTmpl channel.value params = .ok cwp)
    (hnot : ∀ x ∈ lookupD s.active_subscriptions cwp, x.subscription_id ≠ sid) :
    (unsubscribe s channel sid params).2.2 = .ok false ∧
    (∀ k, lookupD (unsubscribe s channel sid params).1.active_subscriptions k =
      lookupD s.active_subscriptions k) ∧
    (unsubscribe s channel sid params).1.queued_subscriptions =
      s.queued_subscriptions ∧
    (unsubscribe s channel sid params).2.1 =
      (if lookupD s.active_subscriptions cwp = []
       then [WireMsg.unsubscribeMsg cwp] else []) := by
  have hfil : (lookupD s.active_subscriptions cwp).filter
      (fun x => x.subscription_id ≠ sid) = lookupD s.active_subscriptions cwp :=
    List.filter_eq_self.mpr (fun a ha => by simpa using hnot a ha)
  rw [unsubscribe_ready s channel params cwp sid hready hf]
  refine ⟨by rw [hfil]; simp, ?_, rfl, ?_⟩
  · intro k
    show lookupD (ddSet (ddGet s.active_subscriptions cwp).2 cwp _) k = _
    rw [lookupD_ddSet, lookupD_ddGet_snd, hfil]
    by_cases hk : k = cwp <;> simp [hk]
  · rw [hfil]
    by_cases hc : lookupD s.active_subscriptions cwp = [] <;>
      simp [hc, List.length_eq_zero]

/-- C5 witness: the amended theorem applied to `readyTwoTrades` with an
absent subscription id (5): returns false and, since other subscribers
remain on `trades.X`, sends nothing. -/
theorem c5_unsubscribe_absent_id_witness :
    formatTmpl ParadexWebsocketChannel.TRADES.value [("market", "X")] = .ok "trades.X" ∧
    (unsubscribe readyTwoTrades .TRADES 5 [("market", "X")]).2.2 = .ok false ∧
    (unsubscribe readyTwoTrades .TRADES 5 [("market", "X")]).2.1 = [] :=
  ⟨rfl,
   (c5_unsubscribe_absent_id readyTwoTrades .TRADES 5 [("market", "X")] "trades.X"
     rfl rfl (by decide)).1,
   by
    have h := (c5_unsubscribe_absent_id readyTwoTrades .TRADES 5 [("market", "X")]
      "trades.X" rfl rfl (by decide)).2.2.2
    simpa using h⟩

/-- C6: an inbound frame whose `params.channel` is the literal `"pong"`
never reaches any subscriber callback — for EVERY client state, including
one with a subscriber registered under the channel key `"pong"`; likewise
a frame with no top-level `params` field, or with `params` but no
`channel` field, invokes no callback and leaves the state unchanged. -/
theorem c6_pong_and_malformed_never_dispatch (raises : Nat → Bool) (s : ClientState)
    (tok : Nat) :
    read_messages raises s (.obj (some ⟨some "pong", tok⟩)) = (s, [], .ok ()) ∧
    read_messages raises s (.obj none) = (s, [], .ok ()) ∧
    read_messages raises s (.obj (some ⟨none, tok⟩)) = (s, [], .ok ()) := by
  refine ⟨?_, rfl, rfl⟩
  simp [read_messages]

/-- C7: a subscribe call made while the handle is not ready (and whose
channel resolves) is appended to the queue — not dropped and not sent on
the transport: the wire-message list is empty, the call returns the
subscription id immediately, and the only state changes are the queue
append and the counter bump for a fresh id. -/
theorem c7_subscribe_queues_when_not_ready (s : ClientState)
    (channel : ParadexWebsocketChannel) (cb : Nat) (sidOpt : Option Nat)
    (params : Params) (cwp : String)
    (hready : s.ws_ready = false)
    (hf : formatTmpl channel.value params = .ok cwp) :
    (subscribe s channel cb sidOpt params).2.1 = [] ∧
    (subscribe s channel cb sidOpt params).2.2 =
      .ok (sidOf sidOpt s.subscription_id_counter) ∧
    (subscribe s channel cb sidOpt params).1.queued_subscriptions =
      s.queued_subscriptions ++
        [(channel, params, ⟨cb, sidOf sidOpt s.subscription_id_counter⟩)] ∧
    (subscribe s channel cb sidOpt params).1.active_subscriptions =
      s.active_subscriptions ∧
    (subscribe s channel cb sidOpt params).1.ws_ready = s.ws_ready := by
  rw [subscribe_not_ready s channel cb sidOpt params cwp hready hf]
  exact ⟨rfl, rfl, rfl, rfl, rfl⟩

/-- C7 witness: queueing a `bbo.{market}` subscription on a fresh
(not-ready) client. -/
theorem c7_subscribe_queues_when_not_ready_witness :
    initialState.ws_ready = false ∧
    formatTmpl ParadexWebsocketChannel.BBO.value [("market", "ETH-USD-PERP")] =
      .ok "bbo.ETH-USD-PERP" ∧
    (subscribe initialState .BBO 5 none [("market", "ETH-USD-PERP")]).2.1 = [] :=
  ⟨rfl, rfl,
   (c7_subscribe_queues_when_not_ready initialState .BBO 5 none
     [("market", "ETH-USD-PERP")] "bbo.ETH-USD-PERP" rfl rfl).1⟩

/-- C8: an unsubscribe call while the handle is not ready (in particular,
before the transport has ever become ready, since `ws_ready` starts false
and is only set by `on_open`) fails synchronously with the
`NotImplementedError` guard and changes nothing — the returned state is
the input state and no wire message is sent; and whenever unsubscribe does
return a boolean, it returns true if and only if some entry with the given
subscription_id was present in (and hence removed from) the resolved
channel's active list. -/
theorem c8_unsubscribe_guard (s : ClientState) (channel : ParadexWebsocketChannel)
    (sid : Nat) (params : Params) :
    (s.ws_ready = false →
      unsubscribe s channel sid params = (s, [], .error .unsubBeforeReady)) ∧
    (∀ b, (unsubscribe s channel sid params).2.2 = .ok b →
      ∃ cwp, formatTmpl channel.value params = .ok cwp ∧
        (b = true ↔ ∃ x ∈ lookupD s.active_subscriptions cwp,
          x.subscription_id = sid)) := by
  constructor
  · intro h
    exact unsubscribe_not_ready s channel params sid h
  · intro b hb
    cases hs : s.ws_ready with
    | false =>
      rw [unsubscribe_not_ready s channel params sid hs] at hb
      simp at hb
    | true =>
      cases hf : formatTmpl channel.value params with
      | error n =>
        have hu : unsubscribe s channel sid params = (s, [], .error (.keyError n)) := by
          simp [unsubscribe, hs, hf]
        rw [hu] at hb
        simp at hb
      | ok cwp =>
        refine ⟨cwp, rfl, ?_⟩
        rw [unsubscribe_ready s channel params cwp sid hs hf] at hb
        have hbv : decide ((lookupD s.active_subscriptions cwp).length ≠
            ((lookupD s.active_subscriptions cwp).filter
              (fun x => x.subscription_id ≠ sid)).length) = b := by
          simpa using hb
        rw [← hbv]
        simp only [decide_eq_true_eq]
        exact filter_length_ne_iff (lookupD s.active_subscriptions cwp) sid

/-- C8 witness: the guard on a fresh (never-ready) client, and the
returns-true-iff-removed direction on `readyTwoTrades` where id 2 is
present. -/
theorem c8_unsubscribe_guard_witness :
    initialState.ws_ready = false ∧
    unsubscribe initialState .POSITIONS 1 [] = (initialState, [], .error .unsubBeforeReady) ∧
    ∃ cwp, formatTmpl ParadexWebsocketChannel.TRADES.value [("market", "X")] = .ok cwp ∧
      (true = true ↔ ∃ x ∈ lookupD readyTwoTrades.active_subscriptions cwp,
        x.subscription_id = 2) :=
  ⟨rfl,
   (c8_unsubscribe_guard initialState .POSITIONS 1 []).1 rfl,
   (c8_unsubscribe_guard readyTwoTrades .TRADES 2 [("market", "X")]).2 true rfl⟩

/-- C9: resolving any channel whose template contains a placeholder with a
parameter mapping missing that placeholder's key fails deterministically —
the result is never a (partially or fully) substituted `.ok` string, but a
`KeyError` naming a genuinely missing placeholder of that template. -/
theorem c9_missing_placeholder_fails (c : ParadexWebsocketChannel) (params : Params)
    (n : String) (hmem : Seg.ph n ∈ c.value) (hmiss : plookup params n = none) :
    (∀ out, formatTmpl c.value params ≠ .ok out) ∧
    ∃ m, formatTmpl c.value params = .error m ∧ Seg.ph m ∈ c.value ∧
      plookup params m = none := by
  obtain ⟨m, hm1, hm2, hm3⟩ := formatTmpl_missing c.value params n hmem hmiss
  refine ⟨fun out hout => ?_, ⟨m, hm1, hm2, hm3⟩⟩
  rw [hm1] at hout
  cases hout

/-- C9 witness: resolving `bbo.{market}` with an empty parameter mapping
can never produce an `.ok` channel string. -/
theorem c9_missing_placeholder_fails_witness :
    Seg.ph "market" ∈ ParadexWebsocketChannel.BBO.value ∧
    plookup ([] : Params) "market" = none ∧
    ∀ out, formatTmpl ParadexWebsocketChannel.BBO.value [] ≠ .ok out :=
  ⟨by decide, rfl,
   (c9_missing_placeholder_fails .BBO [] "market" (by decide) rfl).1⟩

/-- C10: for every inbound frame, `read_messages` leaves the ready flag,
the queue, the counter and every channel's subscriber list unchanged; its
only table mutation is the `defaultdict` side effect of materialising a
single empty entry for a previously absent key; and that side effect is
not observable by subsequent `subscribe` or `unsubscribe` calls — they
return identical results and sent messages, and leave observationally
equivalent states, whether run on the pre-frame or post-frame state. -/
theorem c10_read_messages_frame_effect (raises : Nat → Bool) (s : ClientState)
    (msg : InMsg) :
    (read_messages raises s msg).1.ws_ready = s.ws_ready ∧
    (read_messages raises s msg).1.queued_subscriptions = s.queued_subscriptions ∧
    (read_messages raises s msg).1.subscription_id_counter =
      s.subscription_id_counter ∧
    (∀ k, lookupD (read_messages raises s msg).1.active_subscriptions k =
      lookupD s.active_subscriptions k) ∧
    ((read_messages raises s msg).1.active_subscriptions = s.active_subscriptions ∨
      ∃ ch, plookup s.active_subscriptions ch = none ∧
        (read_messages raises s msg).1.active_subscriptions =
          s.active_subscriptions ++ [(ch, [])]) ∧
    (∀ channel cb sidOpt params,
      (subscribe (read_messages raises s msg).1 channel cb sidOpt params).2 =
        (subscribe s channel cb sidOpt params).2 ∧
      EquivState (subscribe (read_messages raises s msg).1 channel cb sidOpt params).1
        (subscribe s channel cb sidOpt params).1) ∧
    (∀ channel sid params,
      (unsubscribe (read_messages raises s msg).1 channel sid params).2 =
        (unsubscribe s channel sid params).2 ∧
      EquivState (unsubscribe (read_messages raises s msg).1 channel sid params).1
        (unsubscribe s channel sid params).1) := by
  obtain ⟨e1, e2, e3, e4, e5⟩ := read_messages_state_effect raises s msg
  have heq : EquivState (read_messages raises s msg).1 s := ⟨e1, e2, e3, e4⟩
  refine ⟨e1, e2, e3, e4, e5, ?_, ?_⟩
  · intro channel cb sidOpt params
    have h := subscribe_respects_equiv (read_messages raises s msg).1 s heq
      channel cb sidOpt params
    exact h
  · intro channel sid params
    have h := unsubscribe_respects_equiv (read_messages raises s msg).1 s heq
      channel sid params
    exact h
